import Mathlib

/-!
Shallow embedding of the Bunkerhill inference API TypeScript client
(src/client.ts, src/django_jwt_client.ts, src/exceptions.ts) and proofs
about its credential handling, retry behavior and error surface.

The HTTP transport (axios) is modelled as a scripted oracle: a World holds a
function from the request index to the outcome of that request, a request
counter, a log of every dispatched request, and a ghost event trace recording
exactly the two sites where the source touches the failure counter
(numFailures = 0 on a successful attempt, numFailures += 1 in
handleFailedRequest).  All definitions are executable.
-/

namespace BHClient

/-- JS values, used for request headers and JSON request bodies. -/
inductive JsVal where
  | str (s : String)
  | obj (fields : List (String × JsVal))

/-- Field lookup on a JS object value (returns none on a string value). -/
def jsGet (v : JsVal) (key : String) : Option JsVal :=
  match v with
  | .str _ => none
  | .obj fields => fields.lookup key

/-- JS truthiness of a nullable string: null and the empty string are falsy. -/
def jsFalsyStr : Option String → Bool
  | none => true
  | some s => s == ""

/-- JS truthiness (the positive form). -/
def jsTruthy (o : Option String) : Bool := !(jsFalsyStr o)

/-- Body of an HTTP response as seen by the client: a JSON document from which
the code reads a token field, plus its rendering used in string contexts. -/
structure RespData where
  token : Option String
  text : String
deriving Repr, DecidableEq

/-- An axios response: status code and body. -/
structure AxResponse where
  status : Nat
  data : RespData
deriving Repr, DecidableEq

/-- Outcome of one HTTP attempt: either the server responded (any status), or
a transport-level error occurred and there is no response at all. -/
inductive HttpOutcome where
  | response (r : AxResponse)
  | netErr (msg : String)

/-- The request configuration handed to axios for one attempt. -/
structure HttpRequest where
  url : String
  method : String
  headers : Option JsVal
  data : Option JsVal

/-- Ghost events marking the two failure-counter sites of the source:
a successful attempt (counter reset) and a terminal failure (counter
increment in handleFailedRequest). -/
inductive Event where
  | success
  | terminalFailure
deriving Repr, DecidableEq

/-- The transport world: scripted outcomes, the request counter, the log of
dispatched requests, and the ghost event trace. -/
structure World where
  script : Nat → HttpOutcome
  count : Nat
  log : List HttpRequest
  events : List Event

/-- An error thrown by a single attempt inside the retry loop: an axios error
(carrying the response when the server responded) or a plain JS Error. -/
inductive AttemptError where
  | axiosErr (msg : String) (response : Option AxResponse)
  | jsErr (msg : String)

/-- JS Error.toString rendering. -/
def AttemptError.toStr : AttemptError → String
  | .axiosErr m _ => "AxiosError: " ++ m
  | .jsErr m => "Error: " ++ m

/-- The response attached to an attempt error, if any (e.response in JS). -/
def AttemptError.resp : AttemptError → Option AxResponse
  | .axiosErr _ r => r
  | .jsErr _ => none

/-- What ultimately reaches the caller of a failing client method: either a
FailedRequestError built by exceptions.ts, or a TypeError raised while
building it (reading .status of an undefined response). -/
inductive Thrown where
  | failedRequestError (message : String)
  | typeError (message : String)
deriving Repr, DecidableEq

/-- Mutable per-instance state of DjangoJWTClient: the held bearer token
(accessJwt, line 28) and the failure counter (numFailures, line 23). -/
structure St where
  accessJwt : Option String
  numFailures : Nat
deriving Repr, DecidableEq

/-- Static client configuration (the DjangoJWTClient constructor parameters,
plus a fixed clock reading for Date.now). -/
structure Config where
  username : String
  clientPrivateKey : String
  baseUrl : String
  authPath : String
  numFailuresAllowed : Nat
  nowMs : Nat

/-- JS String.prototype.replace with a string pattern: replaces the first
occurrence only; returns the input unchanged when the pattern is absent. -/
def replaceFirstL (pat rep : List Char) : List Char → List Char
  | [] => if pat.isPrefixOf ([] : List Char) then rep else []
  | c :: rest =>
    if pat.isPrefixOf (c :: rest) then rep ++ (c :: rest).drop pat.length
    else c :: replaceFirstL pat rep rest

/-- String wrapper for replaceFirstL. -/
def replaceFirst (s pat rep : String) : String :=
  ⟨replaceFirstL pat.data rep.data s.data⟩

/-- django_jwt_client.ts line 16. -/
def CLIENT_JWT_ENCODING_ALGORITHM : String := "RS256"

/-- django_jwt_client.ts lines 17-19. -/
def AUTH_REQUEST_HEADERS : JsVal :=
  .obj [("Content-Type", .str "application/json")]

/-- The retries option of the async-retry call (line 105). -/
def RETRIES : Nat := 3

/-- The claim set signed by generateClientJwt (lines 44-56). -/
structure JwtClaims where
  iss : String
  exp : Nat
  username : String
deriving Repr, DecidableEq

/-- Model of jwt.sign from the external jsonwebtoken library: an opaque
injective encoding of the claims, the key and the algorithm. -/
def jwtSign (claims : JwtClaims) (key alg : String) : String :=
  "signed(" ++ claims.iss ++ "|" ++ toString claims.exp ++ "|" ++
    claims.username ++ "|" ++ key ++ "|" ++ alg ++ ")"

/-- generateClientJwt (lines 44-56). -/
def generateClientJwt (cfg : Config) : String :=
  let thirtyMinutesFromNow := cfg.nowMs / 1000 + 30 * 60
  jwtSign
    { iss := "inference_api_typescript_client",
      exp := thirtyMinutesFromNow,
      username := cfg.username }
    cfg.clientPrivateKey CLIENT_JWT_ENCODING_ALGORITHM

/-- The message template of FailedRequestError (exceptions.ts line 15). -/
def failedRequestTemplate : String :=
  "{method} {url} returned a status code of {status_code} with error: {error}"

/-- The FailedRequestError constructor (exceptions.ts lines 12-23).  It reads
args.response.status and args.response.data unconditionally, so when the
failing request had no response the construction itself raises a TypeError.
Note that the error argument is never used: the template slot named error is
filled with args.response.data. -/
def mkFailedRequestError (url : String) (method : String)
    (response : Option AxResponse) (errText : String) : Thrown :=
  match response with
  | none => .typeError "TypeError: cannot read properties of undefined (reading status)"
  | some r =>
    .failedRequestError
      (replaceFirst
        (replaceFirst
          (replaceFirst
            (replaceFirst failedRequestTemplate "{method}" method)
            "{url}" url)
          "{status_code}" (toString r.status))
        "{error}" r.data.text)

/-- The default axios validateStatus: only 2xx responses resolve. -/
def validateStatusDefault (status : Nat) : Bool :=
  200 ≤ status && status < 300

/-- One axios dispatch: logs the request, consumes the next scripted outcome,
and rejects (error) for any non-2xx response or transport error. -/
def axiosCall (req : HttpRequest) (w : World) :
    World × Except AttemptError AxResponse :=
  let w1 : World := { w with count := w.count + 1, log := w.log ++ [req] }
  match w.script w.count with
  | .response r =>
    if validateStatusDefault r.status then (w1, .ok r)
    else
      (w1, .error (.axiosErr ("Request failed with status code " ++ toString r.status) (some r)))
  | .netErr m => (w1, .error (.axiosErr m none))

/-- The body of the async-retry callback in makeRequest (lines 92-103):
dispatch the request, re-check the status (dead under the default
validateStatus), and on success reset the failure counter to zero. -/
def retryBody (st : St) (w : World) (req : HttpRequest) :
    St × World × Except AttemptError AxResponse :=
  match axiosCall req w with
  | (w1, .error e) => (st, w1, .error e)
  | (w1, .ok result) =>
    if result.status ≥ 400 then
      (st, w1, .error (.jsErr ("Request failed with status code " ++ toString result.status)))
    else
      ({ st with numFailures := 0 },
       { w1 with events := w1.events ++ [Event.success] },
       .ok result)

/-- The async-retry driver with a budget of n executions of the callback:
with retries set to 3 the callback runs up to 4 times, and after the last
failed execution the last error propagates. -/
def retryLoop : Nat → St → World → HttpRequest →
    St × World × Except AttemptError AxResponse
  | 0, st, w, _ => (st, w, .error (.jsErr "retry budget must be positive"))
  | 1, st, w, req => retryBody st w req
  | Nat.succ (Nat.succ n), st, w, req =>
    match retryBody st w req with
    | (st1, w1, .ok r) => (st1, w1, .ok r)
    | (st1, w1, .error _) => retryLoop (Nat.succ n) st1 w1 req

/-- The auth endpoint URL, as compared by isAuthRequest (line 73). -/
def authUrl (cfg : Config) : String := cfg.baseUrl ++ cfg.authPath

/-- isAuthRequest (lines 72-74). -/
def isAuthRequest (cfg : Config) (url : String) : Bool := url == authUrl cfg

/-- The axios request configuration built by makeRequest (lines 89-98). -/
def mkHttpRequest (cfg : Config) (path method : String)
    (data headers : Option JsVal) : HttpRequest :=
  { url := cfg.baseUrl ++ path, method := method, headers := headers, data := data }

/-- The type of the ensureJwtAccess continuation used to close the recursion
between handleFailedRequest and ensureJwtAccess. -/
def Ensure : Type := St → World → St × World × Option Thrown

/-- handleFailedRequest (lines 58-70), parameterized by the ensureJwtAccess
continuation: increment the failure counter (ghost event recorded); when the
counter exceeds the threshold and the failing URL is not the auth endpoint,
clear the credential and re-acquire; finally throw the FailedRequestError for
the original error (unless the re-acquisition itself threw, in which case
that error propagates instead). -/
def handleFailedRequestWith (ens : Ensure) (cfg : Config) (st : St) (w : World)
    (e : AttemptError) (url method : String) : St × World × Thrown :=
  let st1 : St := { st with numFailures := st.numFailures + 1 }
  let w1 : World := { w with events := w.events ++ [Event.terminalFailure] }
  if st1.numFailures > cfg.numFailuresAllowed ∧ isAuthRequest cfg url = false then
    match ens { st1 with accessJwt := none } w1 with
    | (st2, w2, some t) => (st2, w2, t)
    | (st2, w2, none) => (st2, w2, mkFailedRequestError url method e.resp e.toStr)
  else
    (st1, w1, mkFailedRequestError url method e.resp e.toStr)

/-- makeRequest (lines 89-111), parameterized by the ensureJwtAccess
continuation handed to handleFailedRequest. -/
def makeRequestWith (ens : Ensure) (cfg : Config) (st : St) (w : World)
    (path method : String) (data headers : Option JsVal) :
    St × World × Except Thrown AxResponse :=
  let req := mkHttpRequest cfg path method data headers
  match retryLoop (RETRIES + 1) st w req with
  | (st1, w1, .ok r) => (st1, w1, .ok r)
  | (st1, w1, .error e) =>
    match handleFailedRequestWith ens cfg st1 w1 e req.url method with
    | (st2, w2, t) => (st2, w2, .error t)

/-- A continuation that never refreshes.  Used to instantiate the recursive
ensureJwtAccess call reached from the auth request itself, where
handleFailedRequest provably never invokes the continuation (isAuthRequest is
true there); makeRequestWith_authPath_ens_irrel proves the irrelevance. -/
def ensureNoRefresh : Ensure := fun st w => (st, w, none)

/-- ensureJwtAccess (lines 76-87): when no (truthy) token is held, mint a
client JWT and exchange it at the auth path; store response.data.token.  The
headers argument reproduces the source exactly: the constant
AUTH_REQUEST_HEADERS is passed wrapped in an extra object under the key
headers (line 83 passes an object literal to the headers parameter). -/
def ensureJwtAccess (cfg : Config) (st : St) (w : World) :
    St × World × Option Thrown :=
  if jsFalsyStr st.accessJwt then
    let clientJwt := generateClientJwt cfg
    match makeRequestWith ensureNoRefresh cfg st w cfg.authPath "POST"
        (some (.obj [("jwt", .str clientJwt)]))
        (some (.obj [("headers", AUTH_REQUEST_HEADERS)])) with
    | (st1, w1, .error t) => (st1, w1, some t)
    | (st1, w1, .ok response) =>
      ({ st1 with accessJwt := response.data.token }, w1, none)
  else (st, w, none)

/-- makeRequest with the real ensureJwtAccess continuation. -/
def makeRequest (cfg : Config) (st : St) (w : World) (path method : String)
    (data headers : Option JsVal) : St × World × Except Thrown AxResponse :=
  makeRequestWith (ensureJwtAccess cfg) cfg st w path method data headers

/-- getJson (lines 39-42): ensure a token, then GET with the Authorization
header interpolating the held token. -/
def getJson (cfg : Config) (st : St) (w : World) (path : String) :
    St × World × Except Thrown AxResponse :=
  match ensureJwtAccess cfg st w with
  | (st1, w1, some t) => (st1, w1, .error t)
  | (st1, w1, none) =>
    let tok := st1.accessJwt.getD "null"
    makeRequest cfg st1 w1 path "GET" none
      (some (.obj [("Authorization", .str ("Bearer " ++ tok))]))

/-- A sequence of getJson calls on one client instance, returning the final
state, the final world and the per-call results. -/
def runCalls (cfg : Config) : St → World → List String →
    St × World × List (Except Thrown AxResponse)
  | st, w, [] => (st, w, [])
  | st, w, p :: ps =>
    match getJson cfg st w p with
    | (st1, w1, r) =>
      match runCalls cfg st1 w1 ps with
      | (st2, w2, rs) => (st2, w2, r :: rs)

/-- client.ts line 9. -/
def AUTH_PATH : String := "api/auth/jwt_login/"

/-- client.ts line 10. -/
def GET_INFERENCE_PATH : String :=
  "api/models/{modelId}/patients/{patientMrn}/inferences/"

/-- validateArgs (client.ts lines 48-62), with the JS truthiness of the two
optional arguments embedded by jsTruthy. -/
def validateArgs (privateKeyFilename privateKeyString : Option String) :
    Except String Unit :=
  if !jsTruthy privateKeyFilename && !jsTruthy privateKeyString then
    .error "either privateKeyFilename or privateKeyString must be provided"
  else if jsTruthy privateKeyFilename && jsTruthy privateKeyString then
    .error "privateKeyFilename and privateKeyString cannot both be provided"
  else .ok ()

/-- The numFailuresAllowed default of the DjangoJWTClient constructor
(django_jwt_client.ts line 35): params.numFailuresAllowed or-else 3, where
the JS or-operator replaces every falsy value, 0 included. -/
def djangoNumFailuresAllowed (p : Option Nat) : Nat :=
  match p with
  | none => 3
  | some n => if n == 0 then 3 else n

/-- The InferenceAPIClient constructor (client.ts lines 14-46).  readFile
models fs.readFileSync.  The result type carries no World: construction
involves no HTTP dispatch, so a validation error is raised before any network
call can happen. -/
def inferenceAPIClientCtor (readFile : String → String) (username : String)
    (privateKeyFilename privateKeyString : Option String)
    (baseUrl : String) (nowMs : Nat) : Except String Config :=
  match validateArgs privateKeyFilename privateKeyString with
  | .error e => .error e
  | .ok _ =>
    let clientPrivateKey :=
      if jsTruthy privateKeyFilename then readFile (privateKeyFilename.getD "")
      else if jsTruthy privateKeyString then privateKeyString.getD ""
      else ""
    .ok { username := username, clientPrivateKey := clientPrivateKey,
          baseUrl := baseUrl, authPath := AUTH_PATH,
          numFailuresAllowed := djangoNumFailuresAllowed none, nowMs := nowMs }

/-- The resource path computation of getInferences (client.ts lines 83-85),
with the replace target strings exactly as written in the source. -/
def getInferencesResourcePath (modelId patientMrn : String) : String :=
  replaceFirst (replaceFirst GET_INFERENCE_PATH "{modelID}" modelId)
    "{patientMrn}" patientMrn

/-! ### Concrete scenario material -/

/-- A concrete client configuration with the default failure threshold. -/
def cfg0 : Config :=
  { username := "u", clientPrivateKey := "k", baseUrl := "b/",
    authPath := "auth", numFailuresAllowed := 3, nowMs := 0 }

/-- The initial state of a fresh DjangoJWTClient instance (lines 23 and 28):
no token, zero failures. -/
def st0 : St := { accessJwt := none, numFailures := 0 }

/-- A fresh world over a given script. -/
def w0 (s : Nat → HttpOutcome) : World :=
  { script := s, count := 0, log := [], events := [] }

/-- A 200 response whose body carries a token. -/
def resp200 (tok : String) : HttpOutcome :=
  .response { status := 200, data := { token := some tok, text := "ok" } }

/-- A 500 response. -/
def resp500 : HttpOutcome :=
  .response { status := 500, data := { token := none, text := "Server exploded" } }

/-- Script: the first request (the auth exchange) succeeds with token T, every
later request returns HTTP 500. -/
def script1 : Nat → HttpOutcome := fun n => if n == 0 then resp200 "T" else resp500

/-- Script: request 0 (first auth exchange) succeeds with token T, request 17
(the escalation auth exchange after the fourth terminal failure) succeeds with
token T2, every other request returns HTTP 500. -/
def script2 : Nat → HttpOutcome := fun n =>
  if n == 0 then resp200 "T" else if n == 17 then resp200 "T2" else resp500

/-- Script: every request succeeds with token T. -/
def scriptAll200 : Nat → HttpOutcome := fun _ => resp200 "T"

/-- Script: every request returns HTTP 500. -/
def scriptAll500 : Nat → HttpOutcome := fun _ => resp500

/-- One getJson call against script1: auth succeeds, domain always 500. -/
def run1 : St × World × List (Except Thrown AxResponse) :=
  runCalls cfg0 st0 (w0 script1) ["p"]

/-- Three consecutive getJson calls against script1. -/
def run3 : St × World × List (Except Thrown AxResponse) :=
  runCalls cfg0 st0 (w0 script1) ["p", "p", "p"]

/-- Four consecutive getJson calls against script2. -/
def run4 : St × World × List (Except Thrown AxResponse) :=
  runCalls cfg0 st0 (w0 script2) ["p", "p", "p", "p"]

/-- Number of logged requests dispatched to a given URL. -/
def countRequestsTo (url : String) (log : List HttpRequest) : Nat :=
  (log.filter (fun r => r.url == url)).length

/-- Whether a call result is a thrown FailedRequestError. -/
def isFRE : Except Thrown AxResponse → Bool
  | .error (.failedRequestError _) => true
  | _ => false

/-! ### Failure-counter invariant machinery -/

/-- Whether a ghost event is a successful request. -/
def isSuccessEv : Event → Bool
  | .success => true
  | .terminalFailure => false

/-- The number of terminal failures since the last successful request in an
event trace: the length of the trailing run of non-success events (every
event is either a success or a terminal failure). -/
def tfSinceLastSuccess (es : List Event) : Nat :=
  (es.reverse.takeWhile (fun e => !isSuccessEv e)).length

theorem tfSinceLastSuccess_nil : tfSinceLastSuccess [] = 0 := rfl

theorem tfSinceLastSuccess_append_success (es : List Event) :
    tfSinceLastSuccess (es ++ [Event.success]) = 0 := by
  simp [tfSinceLastSuccess, isSuccessEv]

theorem tfSinceLastSuccess_append_tf (es : List Event) :
    tfSinceLastSuccess (es ++ [Event.terminalFailure]) = tfSinceLastSuccess es + 1 := by
  simp [tfSinceLastSuccess, isSuccessEv, List.takeWhile]

/-- The failure-counter invariant: the counter equals the number of terminal
failures since the last successful request. -/
def Inv (st : St) (w : World) : Prop :=
  st.numFailures = tfSinceLastSuccess w.events

theorem axiosCall_events (req : HttpRequest) (w : World) :
    (axiosCall req w).1.events = w.events := by
  unfold axiosCall
  cases w.script w.count with
  | response r => by_cases h : validateStatusDefault r.status <;> simp [h]
  | netErr m => rfl

theorem retryBody_inv (st : St) (w : World) (req : HttpRequest)
    (st1 : St) (w1 : World) (r : Except AttemptError AxResponse)
    (heq : retryBody st w req = (st1, w1, r)) (h : Inv st w) : Inv st1 w1 := by
  have hev := axiosCall_events req w
  unfold retryBody at heq
  rcases hac : axiosCall req w with ⟨wa, res⟩
  rw [hac] at heq hev
  cases res with
  | error e =>
    simp only at heq
    injection heq with h1 h2
    injection h2 with h2 h3
    subst h1; subst h2
    unfold Inv at h ⊢
    rw [hev]; exact h
  | ok resp =>
    simp only at heq
    split at heq
    · injection heq with h1 h2
      injection h2 with h2 h3
      subst h1; subst h2
      unfold Inv at h ⊢
      rw [hev]; exact h
    · injection heq with h1 h2
      injection h2 with h2 h3
      subst h1; subst h2
      unfold Inv at h ⊢
      simp [hev, tfSinceLastSuccess_append_success]

theorem retryLoop_inv (n : Nat) (st : St) (w : World) (req : HttpRequest)
    (st1 : St) (w1 : World) (r : Except AttemptError AxResponse)
    (heq : retryLoop n st w req = (st1, w1, r)) (h : Inv st w) : Inv st1 w1 := by
  induction n generalizing st w with
  | zero =>
    unfold retryLoop at heq
    injection heq with h1 h2
    injection h2 with h2 h3
    subst h1; subst h2; exact h
  | succ m ih =>
    cases m with
    | zero =>
      unfold retryLoop at heq
      exact retryBody_inv st w req st1 w1 r heq h
    | succ k =>
      unfold retryLoop at heq
      rcases hb : retryBody st w req with ⟨stb, wb, resb⟩
      rw [hb] at heq
      have hinvb := retryBody_inv st w req stb wb resb hb h
      cases resb with
      | ok resp =>
        simp only at heq
        injection heq with h1 h2
        injection h2 with h2 h3
        subst h1; subst h2; exact hinvb
      | error e =>
        simp only at heq
        exact ih stb wb heq hinvb

/-- A continuation preserves the failure-counter invariant. -/
def EnsurePreserving (ens : Ensure) : Prop :=
  ∀ st w st1 w1 t, ens st w = (st1, w1, t) → Inv st w → Inv st1 w1

theorem ensureNoRefresh_preserving : EnsurePreserving ensureNoRefresh := by
  intro st w st1 w1 t heq h
  unfold ensureNoRefresh at heq
  injection heq with h1 h2
  injection h2 with h2 h3
  subst h1; subst h2; exact h

theorem handleFailedRequestWith_inv (ens : Ensure) (cfg : Config) (st : St)
    (w : World) (e : AttemptError) (url method : String)
    (st2 : St) (w2 : World) (t : Thrown)
    (hens : EnsurePreserving ens)
    (heq : handleFailedRequestWith ens cfg st w e url method = (st2, w2, t))
    (h : Inv st w) : Inv st2 w2 := by
  have hinc : Inv { st with numFailures := st.numFailures + 1 }
      { w with events := w.events ++ [Event.terminalFailure] } := by
    unfold Inv at h ⊢
    simp [tfSinceLastSuccess_append_tf, h]
  unfold handleFailedRequestWith at heq
  dsimp only at heq
  split at heq
  · rcases he : ens { st with numFailures := st.numFailures + 1, accessJwt := none }
        { w with events := w.events ++ [Event.terminalFailure] } with ⟨sta, wa, ta⟩
    rw [he] at heq
    have hinva := hens _ _ sta wa ta he hinc
    cases ta with
    | some tt =>
      simp only at heq
      injection heq with h1 h2
      injection h2 with h2 h3
      subst h1; subst h2; exact hinva
    | none =>
      simp only at heq
      injection heq with h1 h2
      injection h2 with h2 h3
      subst h1; subst h2; exact hinva
  · injection heq with h1 h2
    injection h2 with h2 h3
    subst h1; subst h2; exact hinc

theorem makeRequestWith_inv (ens : Ensure) (cfg : Config) (st : St) (w : World)
    (path method : String) (data headers : Option JsVal)
    (st2 : St) (w2 : World) (r : Except Thrown AxResponse)
    (hens : EnsurePreserving ens)
    (heq : makeRequestWith ens cfg st w path method data headers = (st2, w2, r))
    (h : Inv st w) : Inv st2 w2 := by
  unfold makeRequestWith at heq
  dsimp only at heq
  rcases hrl : retryLoop (RETRIES + 1) st w (mkHttpRequest cfg path method data headers)
    with ⟨sta, wa, resa⟩
  rw [hrl] at heq
  have hinva := retryLoop_inv _ st w _ sta wa resa hrl h
  cases resa with
  | ok resp =>
    simp only at heq
    injection heq with h1 h2
    injection h2 with h2 h3
    subst h1; subst h2; exact hinva
  | error e =>
    simp only at heq
    rcases hh : handleFailedRequestWith ens cfg sta wa e
        (mkHttpRequest cfg path method data headers).url method with ⟨stb, wb, tb⟩
    rw [hh] at heq
    injection heq with h1 h2
    injection h2 with h2 h3
    subst h1; subst h2
    exact handleFailedRequestWith_inv ens cfg sta wa e _ method stb wb tb hens hh hinva

theorem ensureJwtAccess_inv (cfg : Config) (st : St) (w : World)
    (st1 : St) (w1 : World) (t : Option Thrown)
    (heq : ensureJwtAccess cfg st w = (st1, w1, t)) (h : Inv st w) : Inv st1 w1 := by
  unfold ensureJwtAccess at heq
  dsimp only at heq
  split at heq
  · rcases hm : makeRequestWith ensureNoRefresh cfg st w cfg.authPath "POST"
        (some (.obj [("jwt", .str (generateClientJwt cfg))]))
        (some (.obj [("headers", AUTH_REQUEST_HEADERS)])) with ⟨sta, wa, resa⟩
    rw [hm] at heq
    have hinva := makeRequestWith_inv ensureNoRefresh cfg st w cfg.authPath "POST"
      _ _ sta wa resa ensureNoRefresh_preserving hm h
    cases resa with
    | error tt =>
      simp only at heq
      injection heq with h1 h2
      injection h2 with h2 h3
      subst h1; subst h2; exact hinva
    | ok resp =>
      simp only at heq
      injection heq with h1 h2
      injection h2 with h2 h3
      subst h1; subst h2; exact hinva
  · injection heq with h1 h2
    injection h2 with h2 h3
    subst h1; subst h2; exact h

theorem ensureJwtAccess_preserving (cfg : Config) :
    EnsurePreserving (ensureJwtAccess cfg) := by
  intro st w st1 w1 t heq h
  exact ensureJwtAccess_inv cfg st w st1 w1 t heq h

theorem getJson_inv (cfg : Config) (st : St) (w : World) (path : String)
    (st1 : St) (w1 : World) (r : Except Thrown AxResponse)
    (heq : getJson cfg st w path = (st1, w1, r)) (h : Inv st w) : Inv st1 w1 := by
  unfold getJson at heq
  rcases he : ensureJwtAccess cfg st w with ⟨sta, wa, ta⟩
  rw [he] at heq
  have hinva := ensureJwtAccess_inv cfg st w sta wa ta he h
  cases ta with
  | some tt =>
    simp only at heq
    injection heq with h1 h2
    injection h2 with h2 h3
    subst h1; subst h2; exact hinva
  | none =>
    simp only at heq
    exact makeRequestWith_inv (ensureJwtAccess cfg) cfg sta wa path "GET" none
      _ st1 w1 r (ensureJwtAccess_preserving cfg) heq hinva

theorem runCalls_inv (cfg : Config) (paths : List String) (st : St) (w : World)
    (st1 : St) (w1 : World) (rs : List (Except Thrown AxResponse))
    (heq : runCalls cfg st w paths = (st1, w1, rs)) (h : Inv st w) : Inv st1 w1 := by
  induction paths generalizing st w rs with
  | nil =>
    unfold runCalls at heq
    injection heq with h1 h2
    injection h2 with h2 h3
    subst h1; subst h2; exact h
  | cons p ps ih =>
    unfold runCalls at heq
    rcases hg : getJson cfg st w p with ⟨sta, wa, ra⟩
    rw [hg] at heq
    have hinva := getJson_inv cfg st w p sta wa ra hg h
    dsimp only at heq
    rcases hr : runCalls cfg sta wa ps with ⟨stb, wb, rb⟩
    rw [hr] at heq
    injection heq with h1 h2
    injection h2 with h2 h3
    subst h1; subst h2
    exact ih sta wa rb hr hinva

/-! ### Auxiliary lemmas: credential preservation and attempt bounds -/

theorem retryBody_accessJwt (st : St) (w : World) (req : HttpRequest)
    (st1 : St) (w1 : World) (r : Except AttemptError AxResponse)
    (heq : retryBody st w req = (st1, w1, r)) : st1.accessJwt = st.accessJwt := by
  unfold retryBody at heq
  rcases hac : axiosCall req w with ⟨wa, res⟩
  rw [hac] at heq
  cases res with
  | error e =>
    simp only at heq
    injection heq with h1 h2
    subst h1; rfl
  | ok resp =>
    simp only at heq
    split at heq <;> (injection heq with h1 h2; subst h1; rfl)

theorem retryLoop_accessJwt (n : Nat) (st : St) (w : World) (req : HttpRequest)
    (st1 : St) (w1 : World) (r : Except AttemptError AxResponse)
    (heq : retryLoop n st w req = (st1, w1, r)) : st1.accessJwt = st.accessJwt := by
  induction n generalizing st w with
  | zero =>
    unfold retryLoop at heq
    injection heq with h1 h2
    subst h1; rfl
  | succ m ih =>
    cases m with
    | zero =>
      unfold retryLoop at heq
      exact retryBody_accessJwt st w req st1 w1 r heq
    | succ k =>
      unfold retryLoop at heq
      rcases hb : retryBody st w req with ⟨stb, wb, resb⟩
      rw [hb] at heq
      have hjb := retryBody_accessJwt st w req stb wb resb hb
      cases resb with
      | ok resp =>
        simp only at heq
        injection heq with h1 h2
        subst h1; exact hjb
      | error e =>
        simp only at heq
        exact (ih stb wb heq).trans hjb

theorem retryBody_count (st : St) (w : World) (req : HttpRequest) :
    (retryBody st w req).2.1.count = w.count + 1 := by
  unfold retryBody axiosCall
  cases w.script w.count with
  | response r => by_cases h : validateStatusDefault r.status <;> simp [h] <;> split <;> rfl
  | netErr m => rfl

theorem retryLoop_count_le (n : Nat) (st : St) (w : World) (req : HttpRequest) :
    (retryLoop n st w req).2.1.count ≤ w.count + n := by
  induction n generalizing st w with
  | zero => unfold retryLoop; simp
  | succ m ih =>
    cases m with
    | zero =>
      unfold retryLoop
      have := retryBody_count st w req
      omega
    | succ k =>
      unfold retryLoop
      rcases hb : retryBody st w req with ⟨stb, wb, resb⟩
      have hc : wb.count = w.count + 1 := by
        have := retryBody_count st w req
        rw [hb] at this; exact this
      cases resb with
      | ok resp => simp only; omega
      | error e =>
        simp only [Nat.succ_eq_add_one]
        have := ih stb wb
        omega

/-- The escalation branch of handleFailedRequest is dead on the auth request:
its continuation is never invoked, so makeRequest on the auth path does not
depend on the ensureJwtAccess continuation handed to it.  This justifies
closing the recursion in ensureJwtAccess with the ensureNoRefresh
continuation. -/
theorem makeRequestWith_authPath_ens_irrel (ens : Ensure) (cfg : Config)
    (st : St) (w : World) (method : String) (data headers : Option JsVal) :
    makeRequestWith ens cfg st w cfg.authPath method data headers
      = makeRequestWith ensureNoRefresh cfg st w cfg.authPath method data headers := by
  have hauth : isAuthRequest cfg (mkHttpRequest cfg cfg.authPath method data headers).url = true := by
    simp [isAuthRequest, mkHttpRequest, authUrl]
  unfold makeRequestWith
  dsimp only
  rcases hrl : retryLoop (RETRIES + 1) st w (mkHttpRequest cfg cfg.authPath method data headers)
    with ⟨sta, wa, resa⟩
  cases resa with
  | ok resp => rfl
  | error e =>
    simp only
    unfold handleFailedRequestWith
    rw [hauth]
    simp

/-! ### Cooperative concurrency model for ensureJwtAccess -/

/-- The guard of ensureJwtAccess (line 77) as executed by one caller: an auth
exchange is dispatched iff the shared accessJwt field is falsy at the moment
the caller runs the guard. -/
def ensureGuardDispatches (sharedJwt : Option String) : Bool :=
  jsFalsyStr sharedJwt

/-- Result of two callers concurrently running ensureJwtAccess on one
instance: how many auth exchanges were performed, the token each caller
observes after its ensureJwtAccess resolves, and the finally stored token. -/
structure ConcOutcome where
  exchanges : Nat
  observed1 : Option String
  observed2 : Option String
  stored : Option String
deriving Repr, DecidableEq

/-- Cooperative interleaving of two callers concurrently entering
ensureJwtAccess (lines 76-87) on one instance, under the canonical event-loop
schedule.  The await of the auth exchange (lines 79-84) is the only yield
point of the body, so each caller first runs the guard of line 77 against the
shared accessJwt, dispatching an exchange when it is falsy; both guards run
before either exchange resolves; each exchange then resolves in dispatch
order (yielding tok1 and tok2 respectively), running the store of line 85;
a caller reads the shared field when it resumes. -/
def twoConcurrentEnsures (tok1 tok2 : String) : ConcOutcome :=
  let jwt0 : Option String := none
  let d1 := ensureGuardDispatches jwt0
  let d2 := ensureGuardDispatches jwt0
  let jwt1 := if d1 then some tok1 else jwt0
  let obs1 := jwt1
  let jwt2 := if d2 then some tok2 else jwt1
  let obs2 := jwt2
  { exchanges := (if d1 then 1 else 0) + (if d2 then 1 else 0),
    observed1 := obs1, observed2 := obs2, stored := jwt2 }

/-- Two sequential (non-overlapping) ensureJwtAccess calls on a fresh
instance, first call. -/
def seqEnsure1 : St × World × Option Thrown :=
  ensureJwtAccess cfg0 st0 (w0 scriptAll200)

/-- Two sequential ensureJwtAccess calls on a fresh instance, second call. -/
def seqEnsure2 : St × World × Option Thrown :=
  ensureJwtAccess cfg0 seqEnsure1.1 seqEnsure1.2.1

/-- Whether an Except result of the constructor embedding is a success. -/
def ctorOk (r : Except String Config) : Bool :=
  match r with
  | .ok _ => true
  | .error _ => false

/-- The auth exchange of a fresh client against script1. -/
def authRun : St × World × Option Thrown :=
  ensureJwtAccess cfg0 st0 (w0 script1)

/-- The single request dispatched by authRun. -/
def authReq0 : HttpRequest :=
  authRun.2.1.log.headD { url := "", method := "", headers := none, data := none }

/-! ### Claim theorems -/

/-- C1 counterexample: with failure threshold 3 and a domain endpoint that
fails terminally on 3 consecutive calls (script1: the initial auth exchange
succeeds with token T, every later request is HTTP 500), the third terminal
failure does NOT trigger invalidate plus ensureCredential: after the three
calls exactly one request was ever sent to the auth URL (no second auth
exchange), the credential is unchanged, the counter sits at the threshold,
and each call threw its own FailedRequestError. -/
theorem c1_third_failure_no_second_auth_exchange :
    countRequestsTo "b/auth" run3.2.1.log = 1
    ∧ run3.1.accessJwt = some "T"
    ∧ run3.1.numFailures = 3
    ∧ run3.2.2.map isFRE = [true, true, true] :=
  ⟨rfl, rfl, rfl, rfl⟩

/-- C1 amended: the escalation requires the counter to exceed the threshold,
not merely reach it: it is the FOURTH consecutive terminal failure of a
non-auth endpoint that triggers invalidate plus ensureCredential, observable
as a second auth exchange (two requests to the auth URL, a fresh token T2
stored, counter reset by the successful exchange), while the fourth call
still throws its own FailedRequestError. -/
theorem c1_fourth_failure_second_auth_exchange :
    countRequestsTo "b/auth" run4.2.1.log = 2
    ∧ run4.1.accessJwt = some "T2"
    ∧ run4.1.numFailures = 0
    ∧ run4.2.2.map isFRE = [true, true, true, true] :=
  ⟨rfl, rfl, rfl, rfl⟩

/-- C2: for every configuration, transport script and sequence of getJson
calls on one fresh client instance, the failure counter equals the number of
terminal failures since the last successful request (the trailing run of
terminal-failure events in the ghost trace), and it is exactly 0 whenever the
trace ends with a success — in particular a success reached after
intermediate in-call retries resets it to 0. -/
theorem c2_failure_counter_invariant (cfg : Config)
    (script : Nat → HttpOutcome) (paths : List String) :
    (runCalls cfg st0 (w0 script) paths).1.numFailures
      = tfSinceLastSuccess (runCalls cfg st0 (w0 script) paths).2.1.events
    ∧ (∀ es, (runCalls cfg st0 (w0 script) paths).2.1.events = es ++ [Event.success]
        → (runCalls cfg st0 (w0 script) paths).1.numFailures = 0) := by
  have h0 : Inv st0 (w0 script) := rfl
  rcases hr : runCalls cfg st0 (w0 script) paths with ⟨st1, w1, rs⟩
  have hinv := runCalls_inv cfg paths st0 (w0 script) st1 w1 rs hr h0
  have hinv2 : st1.numFailures = tfSinceLastSuccess w1.events := hinv
  dsimp only
  refine ⟨hinv2, ?_⟩
  intro es hes
  rw [hinv2, hes, tfSinceLastSuccess_append_success]

/-- C2 witness: one successful call on a fresh client ends with the counter
at 0 (the ghost trace ends with the success of the call). -/
theorem c2_failure_counter_invariant_witness :
    (runCalls cfg0 st0 (w0 scriptAll200) ["p"]).1.numFailures = 0 :=
  (c2_failure_counter_invariant cfg0 scriptAll200 ["p"]).2 [Event.success] (by rfl)

/-- C3 counterexample: a logical call whose endpoint always fails issues 4
HTTP attempts, not at most 3 (async-retry executes the callback retries + 1
times), and 3 such consecutive calls issue 12 domain requests, not 9. -/
theorem c3_four_attempts_per_call :
    countRequestsTo "b/p" run1.2.1.log = 4
    ∧ ¬ countRequestsTo "b/p" run1.2.1.log ≤ 3
    ∧ countRequestsTo "b/p" run3.2.1.log = 12 :=
  ⟨rfl, by decide, rfl⟩

/-- C3 amended: each logical call issues at most 4 HTTP attempts (one initial
plus 3 retries) before being escalated as a terminal failure — retries are
bounded and never continue indefinitely — so 3 consecutive calls whose
endpoint always fails issue 12 domain requests and 3 terminal failures. -/
theorem c3_retry_bounded_four_attempts :
    (∀ (st : St) (w : World) (req : HttpRequest),
      (retryLoop (RETRIES + 1) st w req).2.1.count ≤ w.count + 4)
    ∧ countRequestsTo "b/p" run3.2.1.log = 12
    ∧ run3.1.numFailures = 3 :=
  ⟨fun st w req => retryLoop_count_le (RETRIES + 1) st w req, rfl, rfl⟩

/-- C4: the resource path of getInferences with modelId m1 and patientMrn p1
does NOT resolve to api/models/m1/patients/p1/inferences/: the source replace
targets the string with a capital D while the template placeholder is
spelled with a lowercase d, so the model placeholder is left unsubstituted
(only the patient MRN is substituted). -/
theorem c4_model_placeholder_not_substituted :
    getInferencesResourcePath "m1" "p1"
      = "api/models/{modelId}/patients/p1/inferences/"
    ∧ getInferencesResourcePath "m1" "p1"
      ≠ "api/models/m1/patients/p1/inferences/" :=
  ⟨rfl, by decide⟩

/-- C5 counterexample: two callers concurrently invoking ensureJwtAccess on
one instance holding no credential, under the canonical cooperative schedule,
perform TWO auth exchanges (not exactly one) and observe different tokens:
there is no single-flight guard between the guard of line 77 and the store of
line 85, which are separated by an await. -/
theorem c5_concurrent_duplicate_auth_exchange :
    (twoConcurrentEnsures "T1" "T2").exchanges = 2
    ∧ (twoConcurrentEnsures "T1" "T2").exchanges ≠ 1
    ∧ (twoConcurrentEnsures "T1" "T2").observed1
        ≠ (twoConcurrentEnsures "T1" "T2").observed2 := by
  decide

/-- C5 amended: every concurrent caller that passes the no-credential check
before any exchange resolves performs its own auth exchange: two concurrent
callers perform two exchanges, each observes the token of its own exchange,
and the last resolved token stays stored.  Only sequential invocation
performs exactly one exchange: a second, non-overlapping ensureJwtAccess is a
no-op that leaves the single stored token in place. -/
theorem c5_exchange_per_concurrent_caller :
    (∀ tok1 tok2 : String,
      (twoConcurrentEnsures tok1 tok2).exchanges = 2
      ∧ (twoConcurrentEnsures tok1 tok2).observed1 = some tok1
      ∧ (twoConcurrentEnsures tok1 tok2).observed2 = some tok2
      ∧ (twoConcurrentEnsures tok1 tok2).stored = some tok2)
    ∧ seqEnsure2.2.1.count = 1
    ∧ seqEnsure2.1.accessJwt = some "T" :=
  ⟨fun tok1 tok2 => ⟨rfl, rfl, rfl, rfl⟩, rfl, rfl⟩

/-- C6: evaluation of the FailedRequestError constructor at the failing
input: when the server sent no response at all, constructing the Structured
Failure itself raises a TypeError (args.response.status is read
unconditionally), so the object thrown to the caller is not the Structured
Failure; and even when a response is present, the message drops the
underlying error text — the error template slot is filled with
args.response.data, so the AxiosError text never appears in it. -/
theorem c6_no_response_typeerror_and_error_text_dropped :
    mkFailedRequestError "b/p" "GET" none "Error: connect ECONNREFUSED"
      = Thrown.typeError "TypeError: cannot read properties of undefined (reading status)"
    ∧ mkFailedRequestError "b/p" "GET"
        (some { status := 500, data := { token := none, text := "Server exploded" } })
        "AxiosError: Request failed with status code 500"
      = Thrown.failedRequestError
          "GET b/p returned a status code of 500 with error: Server exploded"
    ∧ ¬ List.IsInfix "AxiosError".data
        "GET b/p returned a status code of 500 with error: Server exploded".data :=
  ⟨rfl, by decide, by decide⟩

/-- C7: evaluation of the credential acquisition at the failing input: the
single dispatched auth request is a POST to the auth URL whose body is the
object with the signed assertion under the key jwt, and the token field of
the response body is stored — but the request headers are the object
AUTH_REQUEST_HEADERS nested one level too deep under the key headers, so no
top-level Content-Type entry exists in the headers handed to axios. -/
theorem c7_auth_request_content_type_missing :
    authReq0.url = authUrl cfg0
    ∧ authReq0.method = "POST"
    ∧ authReq0.data = some (JsVal.obj [("jwt", JsVal.str (generateClientJwt cfg0))])
    ∧ authReq0.headers = some (JsVal.obj [("headers", AUTH_REQUEST_HEADERS)])
    ∧ authReq0.headers.map (fun h => jsGet h "Content-Type") = some none
    ∧ authRun.1.accessJwt = some "T"
    ∧ authRun.2.1.log.length = 1 :=
  ⟨rfl, rfl, rfl, rfl, rfl, rfl, rfl⟩

/-- C8: the InferenceAPIClient constructor succeeds exactly when one of
privateKeyFilename and privateKeyString is supplied (JS-truthy, i.e. present
and non-empty) and the other is not; when both or neither are supplied it
fails with the validation error.  The embedding of the constructor involves
no transport world at all, so the failure occurs before any network call. -/
theorem c8_ctor_validates_key_args (readFile : String → String)
    (username : String) (f s : Option String) (baseUrl : String) (nowMs : Nat) :
    ctorOk (inferenceAPIClientCtor readFile username f s baseUrl nowMs) = true
      ↔ jsTruthy f ≠ jsTruthy s := by
  unfold inferenceAPIClientCtor validateArgs ctorOk
  cases hf : jsTruthy f <;> cases hs : jsTruthy s <;> simp [hf, hs]

/-- C9: a terminal failure of the auth call itself never clears the held
credential and never triggers a recursive re-acquisition: for every failing
makeRequest on the auth path, the credential field is unchanged, the result
does not depend on the ensureJwtAccess continuation (the escalation branch is
dead there), and the failure goes through the normal failure-counting path,
incrementing the counter left by the retry loop by exactly one. -/
theorem c9_auth_failure_preserves_credential (ens : Ensure) (cfg : Config)
    (st : St) (w : World) (method : String) (data headers : Option JsVal)
    (t : Thrown)
    (hfail : (makeRequestWith ens cfg st w cfg.authPath method data headers).2.2
      = Except.error t) :
    (makeRequestWith ens cfg st w cfg.authPath method data headers).1.accessJwt
      = st.accessJwt
    ∧ makeRequestWith ens cfg st w cfg.authPath method data headers
        = makeRequestWith ensureNoRefresh cfg st w cfg.authPath method data headers
    ∧ (makeRequestWith ens cfg st w cfg.authPath method data headers).1.numFailures
        = (retryLoop (RETRIES + 1) st w
            (mkHttpRequest cfg cfg.authPath method data headers)).1.numFailures + 1 := by
  have hirr := makeRequestWith_authPath_ens_irrel ens cfg st w method data headers
  have hauth : isAuthRequest cfg (mkHttpRequest cfg cfg.authPath method data headers).url = true := by
    simp [isAuthRequest, mkHttpRequest, authUrl]
  refine ⟨?_, hirr, ?_⟩ <;>
  · unfold makeRequestWith at hfail ⊢
    dsimp only at hfail ⊢
    rcases hrl : retryLoop (RETRIES + 1) st w
        (mkHttpRequest cfg cfg.authPath method data headers) with ⟨sta, wa, resa⟩
    have hja := retryLoop_accessJwt (RETRIES + 1) st w _ sta wa resa hrl
    rw [hrl] at hfail
    cases resa with
    | ok r =>
      dsimp only at hfail
      exact Except.noConfusion hfail
    | error e =>
      simp only
      unfold handleFailedRequestWith
      rw [hauth]
      simp [hja]

/-- C9 witness: a concrete failing auth exchange (every request HTTP 500)
leaves the credential unchanged, dispatches nothing beyond the retry loop,
and increments the counter by one. -/
theorem c9_auth_failure_preserves_credential_witness :
    (makeRequestWith ensureNoRefresh cfg0 st0 (w0 scriptAll500)
        cfg0.authPath "POST" none none).1.accessJwt = st0.accessJwt
    ∧ makeRequestWith ensureNoRefresh cfg0 st0 (w0 scriptAll500)
          cfg0.authPath "POST" none none
        = makeRequestWith ensureNoRefresh cfg0 st0 (w0 scriptAll500)
            cfg0.authPath "POST" none none
    ∧ (makeRequestWith ensureNoRefresh cfg0 st0 (w0 scriptAll500)
          cfg0.authPath "POST" none none).1.numFailures
        = (retryLoop (RETRIES + 1) st0 (w0 scriptAll500)
            (mkHttpRequest cfg0 cfg0.authPath "POST" none none)).1.numFailures + 1 :=
  c9_auth_failure_preserves_credential ensureNoRefresh cfg0 st0 (w0 scriptAll500)
    "POST" none none
    (Thrown.failedRequestError
      "POST b/auth returned a status code of 500 with error: Server exploded")
    (by rfl)

/-- C10: constructing the JWT client with numFailuresAllowed explicitly 0
yields an effective threshold of 3, and no argument at all can configure a
zero threshold, because the JS or-default replaces every falsy value. -/
theorem c10_zero_threshold_yields_three :
    djangoNumFailuresAllowed (some 0) = 3
    ∧ ∀ p, djangoNumFailuresAllowed p ≠ 0 := by
  refine ⟨rfl, ?_⟩
  intro p
  cases p with
  | none => simp [djangoNumFailuresAllowed]
  | some n =>
    simp only [djangoNumFailuresAllowed]
    by_cases h : n = 0
    · subst h; decide
    · have hb : (n == 0) = false := by simpa using h
      simp [hb]
      exact h

end BHClient
